import Mathlib

/-!
Shallow embedding of the credit-ledger component of the api_cal_calorie
backend (src/server/services/creditService.js, src/server/models/userModel.js,
src/server/models/creditTransactionModel.js, and the reset-count route of
src/server/routes/userRoutes.js), together with proofs of the spec claims
about it.

The mongoose store is modelled as an explicit state: an association list of
user documents keyed by id, an append-only list of credit transactions, and
a logical clock supplying the createdAt timestamps.  Persistence failures
(a throwing save or create) are made explicit via a failure-injection
parameter on consumeCredits, mirroring the try/catch of the source.
-/

namespace CreditLedger

/-- The user document fields relevant to the ledger
(models/userModel.js): apiCreditsUsed defaults to 0, apiCreditsTotal
defaults to 100; name and email stand in for the unrelated fields. -/
structure Account where
  name : String
  email : String
  apiCreditsUsed : Int
  apiCreditsTotal : Int
deriving DecidableEq, Repr

/-- The transaction type enum of models/creditTransactionModel.js. -/
inductive TxType where
  | consume
  | refill
  | adjustment
deriving DecidableEq, Repr

/-- A credit transaction document (models/creditTransactionModel.js). -/
structure CreditTx where
  user : Nat
  amount : Int
  txKind : TxType
  description : String
  endpointPath : Option String
  balanceAfter : Int
  createdAt : Nat
deriving DecidableEq, Repr

/-- The persistent store: user documents keyed by id, the append-only
transaction collection, and a logical clock for createdAt timestamps. -/
structure DB where
  users : List (Nat × Account)
  transactions : List CreditTx
  clock : Nat
deriving DecidableEq, Repr

/-- Failure injection for the two persistence writes inside
consumeCredits: noFail means both succeed, failSave makes the
freshUser.save() throw (nothing persisted), failCreate makes the
CreditTransaction.create() throw after the save already persisted. -/
inductive FailPoint where
  | noFail
  | failSave
  | failCreate
deriving DecidableEq, Repr

/-- The JS return value of consumeCredits: either the success object
with remainingCredits and creditsUsed, or a failure object with a
message and statusCode. -/
inductive ConsumeResult where
  | ok (remainingCredits : Int) (creditsUsed : Int)
  | err (message : String) (statusCode : Nat)
deriving DecidableEq, Repr

/-- The JS return value of addCredits. -/
inductive AddCreditsResult where
  | ok (totalCredits : Int) (remainingCredits : Int)
  | err (message : String) (statusCode : Nat)
deriving DecidableEq, Repr

/-- The JS return value of resetCredits (and of the reset-count route). -/
inductive ResetResult where
  | ok (previousUsed : Int) (currentUsed : Int) (remainingCredits : Int)
  | err (message : String) (statusCode : Nat)
deriving DecidableEq, Repr

/-- The static cost table of creditService.getEndpointCreditCost. -/
def costMap : List (String × Int) :=
  [("/api/estimate-calories", 1)]

/-- creditService.getEndpointCreditCost: costMap lookup with the JS
idiom costMap endpointPath or-else 1, where a 0 stored cost would be
falsy and also fall back to the default 1. -/
def getEndpointCreditCost (endpointPath : String) : Int :=
  match costMap.lookup endpointPath with
  | some c => if c = 0 then 1 else c
  | none => 1

/-- Persisting a fetched user document: the mongoose save() overwrites
the row with the given id. -/
def saveUser (users : List (Nat × Account)) (userId : Nat) (a : Account) :
    List (Nat × Account) :=
  users.map (fun p => if p.1 = userId then (p.1, a) else p)

/-- creditService.consumeCredits.  The JS takes a user document but
refetches by user._id; here the id is passed.  A missing fresh user makes
freshUser.apiCreditsTotal throw, landing in the catch block, which returns
the generic 500 result.  The failure-injection parameter selects which, if
any, of the two persistence writes throws. -/
def consumeCredits (db : DB) (userId : Nat) (endpointPath : String)
    (fp : FailPoint) : DB × ConsumeResult :=
  let creditCost := getEndpointCreditCost endpointPath
  match db.users.lookup userId with
  | none =>
      (db, .err "Error processing API credits" 500)
  | some freshUser =>
      let remainingCredits := freshUser.apiCreditsTotal - freshUser.apiCreditsUsed
      if remainingCredits < creditCost then
        (db, .err ("Insufficient API credits. You need " ++ toString creditCost
          ++ " credits but have only " ++ toString remainingCredits
          ++ " remaining.") 429)
      else
        match fp with
        | .failSave => (db, .err "Error processing API credits" 500)
        | .failCreate =>
            let updated :=
              { freshUser with apiCreditsUsed := freshUser.apiCreditsUsed + creditCost }
            ({ db with users := saveUser db.users userId updated },
             .err "Error processing API credits" 500)
        | .noFail =>
            let updated :=
              { freshUser with apiCreditsUsed := freshUser.apiCreditsUsed + creditCost }
            let tx : CreditTx :=
              { user := userId
                amount := -creditCost
                txKind := .consume
                description := "API request to " ++ endpointPath
                endpointPath := some endpointPath
                balanceAfter := updated.apiCreditsTotal - updated.apiCreditsUsed
                createdAt := db.clock }
            ({ db with
                users := saveUser db.users userId updated
                transactions := db.transactions ++ [tx]
                clock := db.clock + 1 },
             .ok (updated.apiCreditsTotal - updated.apiCreditsUsed)
               updated.apiCreditsUsed)

/-- creditService.addCredits with MAX_CREDITS = 1000. -/
def addCredits (db : DB) (userId : Nat) (amount : Int) (description : String) :
    DB × AddCreditsResult :=
  match db.users.lookup userId with
  | none => (db, .err "User not found" 404)
  | some user =>
      let maxCredits : Int := 1000
      let newTotal := user.apiCreditsTotal + amount
      if newTotal > maxCredits then
        (db, .err ("Cannot exceed maximum credit limit of " ++ toString maxCredits) 400)
      else
        let updated := { user with apiCreditsTotal := user.apiCreditsTotal + amount }
        let tx : CreditTx :=
          { user := userId
            amount := amount
            txKind := .refill
            description := description
            endpointPath := none
            balanceAfter := updated.apiCreditsTotal - updated.apiCreditsUsed
            createdAt := db.clock }
        ({ db with
            users := saveUser db.users userId updated
            transactions := db.transactions ++ [tx]
            clock := db.clock + 1 },
         .ok updated.apiCreditsTotal
           (updated.apiCreditsTotal - updated.apiCreditsUsed))

/-- creditService.resetCredits. -/
def resetCredits (db : DB) (userId : Nat) : DB × ResetResult :=
  match db.users.lookup userId with
  | none => (db, .err "User not found" 404)
  | some user =>
      let previousUsed := user.apiCreditsUsed
      let updated := { user with apiCreditsUsed := 0 }
      let tx : CreditTx :=
        { user := userId
          amount := previousUsed
          txKind := .adjustment
          description := "Admin reset of used credits"
          endpointPath := none
          balanceAfter := user.apiCreditsTotal
          createdAt := db.clock }
      ({ db with
          users := saveUser db.users userId updated
          transactions := db.transactions ++ [tx]
          clock := db.clock + 1 },
       .ok previousUsed 0 user.apiCreditsTotal)

/-- The admin route POST /api/users/:id/reset-count
(routes/userRoutes.js): it zeroes apiCreditsUsed and saves the user
directly, WITHOUT appending any credit transaction.  On a missing user
it sets 404, throws, and the catch responds 400. -/
def routeResetCount (db : DB) (userId : Nat) : DB × ResetResult :=
  match db.users.lookup userId with
  | none => (db, .err "User not found" 400)
  | some user =>
      let previousUsed := user.apiCreditsUsed
      let updated := { user with apiCreditsUsed := 0 }
      ({ db with users := saveUser db.users userId updated },
       .ok previousUsed 0 user.apiCreditsTotal)

/-- Descending createdAt order used by getTransactionHistory
(the mongoose sort argument createdAt: -1). -/
def newerEq (a b : CreditTx) : Prop :=
  b.createdAt ≤ a.createdAt

instance : DecidableRel newerEq :=
  fun a b => Nat.decLe b.createdAt a.createdAt

instance : IsTotal CreditTx newerEq :=
  ⟨fun a b => Nat.le_total b.createdAt a.createdAt⟩

instance : IsTrans CreditTx newerEq :=
  ⟨fun _ _ _ h h2 => Nat.le_trans h2 h⟩

/-- creditService.getTransactionHistory: the transactions of the user,
sorted by createdAt descending, truncated to the limit. -/
def getTransactionHistory (db : DB) (userId : Nat) (limit : Nat) :
    List CreditTx :=
  (((db.transactions.filter (fun t => t.user == userId))).insertionSort
    newerEq).take limit

/-- getTransactionHistory as called with no explicit limit: the JS
default parameter is 20. -/
def getTransactionHistoryDefault (db : DB) (userId : Nat) : List CreditTx :=
  getTransactionHistory db userId 20

/-- Replay semantics of a single transaction on a pair
(creditsTotal, creditsUsed): a refill raised creditsTotal by its amount;
a consume recorded amount = -cost charged to creditsUsed, and an
adjustment recorded the amount credited back to creditsUsed, so both
subtract the amount from creditsUsed. -/
def applyTxPair (p : Int × Int) (t : CreditTx) : Int × Int :=
  match t.txKind with
  | .refill => (p.1 + t.amount, p.2)
  | _ => (p.1, p.2 - t.amount)

/-- Replaying a transaction log in chronological order from the account
creation state (creditsTotal = 100, creditsUsed = 0). -/
def replay (txs : List CreditTx) : Int × Int :=
  txs.foldl applyTxPair (100, 0)

/-- One state-mutating call against some account.  The alphabet includes
the three ledger operations (consume with its failure injection, add,
reset) and the direct reset-count route. -/
inductive Op where
  | consume (endpointPath : String) (fp : FailPoint)
  | add (amount : Int) (description : String)
  | reset
  | routeReset
deriving DecidableEq, Repr

/-- Apply one operation for one user id, keeping only the store. -/
def applyOp (db : DB) (step : Nat × Op) : DB :=
  match step.2 with
  | .consume endpointPath fp => (consumeCredits db step.1 endpointPath fp).1
  | .add amount description => (addCredits db step.1 amount description).1
  | .reset => (resetCredits db step.1).1
  | .routeReset => (routeResetCount db step.1).1

/-- Run a sequence of operations against the store. -/
def runOps (db : DB) (ops : List (Nat × Op)) : DB :=
  ops.foldl applyOp db

/-- The per-account balance invariant: 0 <= creditsUsed,
creditsUsed <= creditsTotal (remaining never negative) and
0 <= creditsTotal. -/
def AccountOk (acc : Account) : Prop :=
  0 ≤ acc.apiCreditsUsed ∧ acc.apiCreditsUsed ≤ acc.apiCreditsTotal ∧
    0 ≤ acc.apiCreditsTotal

/-- The balance invariant of the spec, for every stored account. -/
def CreditInv (db : DB) : Prop :=
  ∀ userId acc, db.users.lookup userId = some acc → AccountOk acc

/-- The audit invariant of the spec: replaying the transactions of each
stored account from the creation state reproduces its current
(creditsTotal, creditsUsed). -/
def ReplayInv (db : DB) : Prop :=
  ∀ userId acc, db.users.lookup userId = some acc →
    replay (db.transactions.filter (fun t => t.user == userId)) =
      (acc.apiCreditsTotal, acc.apiCreditsUsed)

/-- An addCredits step carries a positive amount (the spec precondition
on AddCredits); the other operations are unconstrained. -/
def PosAmount : Op → Prop
  | .add amount _ => 0 < amount
  | _ => True

/-- A ledger-only step with successful persistence: consume without an
injected failure, addCredits, or resetCredits — not the reset-count
route, and not a consume whose transaction append fails. -/
def LedgerOk : Op → Prop
  | .consume _ fp => fp = .noFail
  | .routeReset => False
  | _ => True

/-- The account-creation state of userModel.js defaults. -/
def freshAccount (name email : String) : Account :=
  { name := name, email := email, apiCreditsUsed := 0, apiCreditsTotal := 100 }

/-- A one-user store holding a freshly created account under id 1. -/
def db0 : DB :=
  { users := [(1, freshAccount "alice" "alice@example.com")]
    transactions := []
    clock := 0 }

/-- An account holding no remaining credits, for scenarios about an
exhausted balance. -/
def dbExhausted : DB :=
  { users := [(1, { name := "bob", email := "bob@example.com",
                    apiCreditsUsed := 100, apiCreditsTotal := 100 })]
    transactions := []
    clock := 0 }

/-- An account with 40 used credits, for the reset scenario. -/
def dbUsed40 : DB :=
  { users := [(1, { name := "carol", email := "carol@example.com",
                    apiCreditsUsed := 40, apiCreditsTotal := 100 })]
    transactions := []
    clock := 0 }

instance decidablePosAmount : DecidablePred PosAmount := fun op =>
  match op with
  | .consume _ _ => isTrue trivial
  | .add amount _ => (inferInstance : Decidable (0 < amount))
  | .reset => isTrue trivial
  | .routeReset => isTrue trivial

instance decidableLedgerOk : DecidablePred LedgerOk := fun op =>
  match op with
  | .consume _ fp => (inferInstance : Decidable (fp = .noFail))
  | .add _ _ => isTrue trivial
  | .reset => isTrue trivial
  | .routeReset => isFalse id

theorem cost_eq_one (endpointPath : String) :
    getEndpointCreditCost endpointPath = 1 := by
  unfold getEndpointCreditCost costMap
  rcases h2 : (endpointPath == "/api/estimate-calories") with _ | _ <;>
    simp [List.lookup, h2]

theorem lookup_saveUser (users : List (Nat × Account)) (userId : Nat) (a : Account)
    (userId2 : Nat) :
    (saveUser users userId a).lookup userId2 =
      if userId2 = userId then (users.lookup userId2).map (fun _ => a)
      else users.lookup userId2 := by
  induction users with
  | nil => simp [saveUser]
  | cons p rest ih =>
      rcases p with ⟨k, b⟩
      show List.lookup userId2
          ((if k = userId then (k, a) else (k, b)) :: saveUser rest userId a) = _
      by_cases h1 : k = userId
      · rw [if_pos h1]
        by_cases h2 : userId2 = k
        · have hu : userId2 = userId := h2.trans h1
          have hb : (userId2 == k) = true := beq_iff_eq.mpr h2
          rw [if_pos hu]
          simp [List.lookup, hb]
        · have hb : (userId2 == k) = false := by simpa using h2
          have hu : ¬ userId2 = userId := fun hc => h2 (hc.trans h1.symm)
          rw [if_neg hu]
          simp [List.lookup, hb, ih, hu]
      · rw [if_neg h1]
        by_cases h2 : userId2 = k
        · have hu : ¬ userId2 = userId := fun hc => h1 (h2.symm.trans hc)
          have hb : (userId2 == k) = true := beq_iff_eq.mpr h2
          rw [if_neg hu]
          simp [List.lookup, hb]
        · have hb : (userId2 == k) = false := by simpa using h2
          by_cases hu : userId2 = userId
          · subst hu
            rw [if_pos rfl]
            simp [List.lookup, hb, ih]
          · rw [if_neg hu]
            simp [List.lookup, hb, ih, hu]

/-- Claim C9: getEndpointCreditCost is a pure lookup: on a key of the
static costMap it returns the tabulated cost, on any identifier not in
the table it returns the default cost 1, and its result is always a
positive integer. -/
theorem getEndpointCreditCost_spec :
    (∀ endpointPath c, (endpointPath, c) ∈ costMap →
      getEndpointCreditCost endpointPath = c) ∧
    (∀ endpointPath, costMap.lookup endpointPath = none →
      getEndpointCreditCost endpointPath = 1) ∧
    (∀ endpointPath, 0 < getEndpointCreditCost endpointPath) := by
  refine ⟨?_, ?_, ?_⟩
  · intro endpointPath c hmem
    have h : endpointPath = "/api/estimate-calories" ∧ c = 1 := by
      simpa [costMap] using hmem
    rw [cost_eq_one endpointPath, h.2]
  · intro endpointPath _
    exact cost_eq_one endpointPath
  · intro endpointPath
    rw [cost_eq_one endpointPath]
    exact Int.one_pos

/-- Witness for C9 at the tabulated key and at an unknown identifier. -/
theorem getEndpointCreditCost_spec_witness :
    getEndpointCreditCost "/api/estimate-calories" = 1 ∧
    getEndpointCreditCost "/unknown" = 1 ∧
    0 < getEndpointCreditCost "/unknown" := by
  refine ⟨?_, ?_, ?_⟩
  · exact getEndpointCreditCost_spec.1 "/api/estimate-calories" 1 (by simp [costMap])
  · exact getEndpointCreditCost_spec.2.1 "/unknown" (by decide)
  · exact getEndpointCreditCost_spec.2.2 "/unknown"

/-- Claim C2: when the stored account has fewer remaining credits than
the endpoint cost, consumeCredits fails with the insufficient-credits
message and statusCode 429, and the store — accounts and transaction
log alike — is returned unchanged. -/
theorem consume_insufficient (db : DB) (userId : Nat) (acc : Account)
    (endpointPath : String) (fp : FailPoint)
    (hlook : db.users.lookup userId = some acc)
    (hlt : acc.apiCreditsTotal - acc.apiCreditsUsed < getEndpointCreditCost endpointPath) :
    consumeCredits db userId endpointPath fp =
      (db, .err ("Insufficient API credits. You need "
        ++ toString (getEndpointCreditCost endpointPath)
        ++ " credits but have only "
        ++ toString (acc.apiCreditsTotal - acc.apiCreditsUsed)
        ++ " remaining.") 429) := by
  unfold consumeCredits
  rw [hlook]
  simp [hlt]

/-- Witness for C2: the spec scenario of an account with remaining = 0
asked to consume the 1-credit estimate endpoint. -/
theorem consume_insufficient_witness :
    consumeCredits dbExhausted 1 "/api/estimate-calories" .noFail =
      (dbExhausted,
       .err "Insufficient API credits. You need 1 credits but have only 0 remaining." 429) := by
  have h := consume_insufficient dbExhausted 1
    { name := "bob", email := "bob@example.com",
      apiCreditsUsed := 100, apiCreditsTotal := 100 }
    "/api/estimate-calories" .noFail rfl (by rw [cost_eq_one]; decide)
  rw [h]
  decide

/-- Claim C3: when the stored account has at least the endpoint cost
remaining, consumeCredits increments apiCreditsUsed by exactly the cost,
appends exactly one transaction with amount = -cost, type consume and
balanceAfter computed after the update, and returns the updated
remaining and used values. -/
theorem consume_success (db : DB) (userId : Nat) (acc : Account)
    (endpointPath : String)
    (hlook : db.users.lookup userId = some acc)
    (hge : getEndpointCreditCost endpointPath ≤ acc.apiCreditsTotal - acc.apiCreditsUsed) :
    consumeCredits db userId endpointPath .noFail =
      ({ db with
          users := saveUser db.users userId
            { acc with apiCreditsUsed :=
                acc.apiCreditsUsed + getEndpointCreditCost endpointPath }
          transactions := db.transactions ++
            [{ user := userId
               amount := -(getEndpointCreditCost endpointPath)
               txKind := .consume
               description := "API request to " ++ endpointPath
               endpointPath := some endpointPath
               balanceAfter := acc.apiCreditsTotal -
                 (acc.apiCreditsUsed + getEndpointCreditCost endpointPath)
               createdAt := db.clock }]
          clock := db.clock + 1 },
       .ok (acc.apiCreditsTotal - (acc.apiCreditsUsed + getEndpointCreditCost endpointPath))
         (acc.apiCreditsUsed + getEndpointCreditCost endpointPath)) := by
  unfold consumeCredits
  rw [hlook]
  simp [not_lt.mpr hge]

/-- Witness for C3: the spec scenario creditsTotal = 100, creditsUsed = 0,
cost 1 succeeds with remaining 99 and used 1, appending the -1/99
consume transaction. -/
theorem consume_success_witness :
    consumeCredits db0 1 "/api/estimate-calories" .noFail =
      ({ users := [(1, { name := "alice", email := "alice@example.com",
                         apiCreditsUsed := 1, apiCreditsTotal := 100 })]
         transactions := [{ user := 1, amount := -1, txKind := .consume,
                            description := "API request to /api/estimate-calories",
                            endpointPath := some "/api/estimate-calories",
                            balanceAfter := 99, createdAt := 0 }]
         clock := 1 },
       .ok 99 1) := by
  have h := consume_success db0 1 (freshAccount "alice" "alice@example.com")
    "/api/estimate-calories" rfl (by rw [cost_eq_one]; decide)
  rw [h]
  decide

/-- Claim C10: when the fresh lookup finds no user document, the null
dereference of freshUser.apiCreditsTotal lands in the catch block, so
consumeCredits returns the generic processing error with statusCode 500
(not an AccountNotFound 404), mutates nothing and appends no
transaction; that result is the very value produced when a persistence
write fails, hence indistinguishable from a persistence failure. -/
theorem consume_missing_user (db : DB) (userId : Nat) (endpointPath : String)
    (fp : FailPoint) (h : db.users.lookup userId = none) :
    consumeCredits db userId endpointPath fp =
      (db, .err "Error processing API credits" 500) ∧
    (∀ db2 userId2 endpointPath2 acc2,
      db2.users.lookup userId2 = some acc2 →
      getEndpointCreditCost endpointPath2 ≤
        acc2.apiCreditsTotal - acc2.apiCreditsUsed →
      (consumeCredits db2 userId2 endpointPath2 .failCreate).2 =
        (consumeCredits db userId endpointPath fp).2) := by
  have hmain : consumeCredits db userId endpointPath fp =
      (db, .err "Error processing API credits" 500) := by
    unfold consumeCredits
    rw [h]
  refine ⟨hmain, ?_⟩
  intro db2 userId2 endpointPath2 acc2 hlook2 hge2
  rw [hmain]
  unfold consumeCredits
  rw [hlook2]
  simp [not_lt.mpr hge2]

/-- Witness for C10: consuming for the absent id 2 in the one-user store
yields the generic 500 error, equal to the result of a transaction-append
failure for the existing account. -/
theorem consume_missing_user_witness :
    consumeCredits db0 2 "/api/estimate-calories" .noFail =
      (db0, .err "Error processing API credits" 500) ∧
    (consumeCredits db0 1 "/api/estimate-calories" .failCreate).2 =
      (consumeCredits db0 2 "/api/estimate-calories" .noFail).2 := by
  have h := consume_missing_user db0 2 "/api/estimate-calories" .noFail rfl
  exact ⟨h.1, h.2 db0 1 "/api/estimate-calories"
    (freshAccount "alice" "alice@example.com") rfl (by rw [cost_eq_one]; decide)⟩

/-- Claim C6: addCredits returns a 404 User-not-found error on a missing
account; returns the 400 limit error and leaves the store untouched when
the new total would exceed the 1000 cap; and otherwise raises
apiCreditsTotal by the (positive) amount, appends one refill transaction
carrying that positive amount, and returns the new total and remaining. -/
theorem addCredits_spec (db : DB) (userId : Nat) (amount : Int)
    (description : String) (hpos : 0 < amount) :
    (db.users.lookup userId = none →
      addCredits db userId amount description =
        (db, .err "User not found" 404)) ∧
    (∀ acc, db.users.lookup userId = some acc →
      1000 < acc.apiCreditsTotal + amount →
      addCredits db userId amount description =
        (db, .err "Cannot exceed maximum credit limit of 1000" 400)) ∧
    (∀ acc, db.users.lookup userId = some acc →
      acc.apiCreditsTotal + amount ≤ 1000 →
      addCredits db userId amount description =
        ({ db with
            users := saveUser db.users userId
              { acc with apiCreditsTotal := acc.apiCreditsTotal + amount }
            transactions := db.transactions ++
              [{ user := userId
                 amount := amount
                 txKind := .refill
                 description := description
                 endpointPath := none
                 balanceAfter := acc.apiCreditsTotal + amount - acc.apiCreditsUsed
                 createdAt := db.clock }]
            clock := db.clock + 1 },
         .ok (acc.apiCreditsTotal + amount)
           (acc.apiCreditsTotal + amount - acc.apiCreditsUsed)) ∧
      0 < amount) := by
  refine ⟨?_, ?_, ?_⟩
  · intro h
    unfold addCredits
    rw [h]
  · intro acc hlook hover
    unfold addCredits
    rw [hlook]
    simp [hover]
    decide
  · intro acc hlook hle
    refine ⟨?_, hpos⟩
    unfold addCredits
    rw [hlook]
    simp [not_lt.mpr hle]

/-- Witness for C6: the spec scenario AddCredits 950 on creditsTotal 100
hits the 1000 cap and changes nothing, while AddCredits 50 succeeds. -/
theorem addCredits_spec_witness :
    addCredits db0 1 950 "Credit refill" =
      (db0, .err "Cannot exceed maximum credit limit of 1000" 400) ∧
    addCredits db0 2 50 "Credit refill" = (db0, .err "User not found" 404) := by
  constructor
  · have h := (addCredits_spec db0 1 950 "Credit refill" (by decide)).2.1
      (freshAccount "alice" "alice@example.com") rfl (by decide)
    rw [h]
  · exact (addCredits_spec db0 2 50 "Credit refill" (by decide)).1 rfl

/-- Claim C7: resetCredits on an existing account zeroes apiCreditsUsed,
leaves apiCreditsTotal and every other field of the document unchanged,
returns the previous used value, a current used of 0 and remaining equal
to apiCreditsTotal, and appends one adjustment transaction whose amount
is the previous apiCreditsUsed and whose balanceAfter is
apiCreditsTotal; on a missing account it fails with 404. -/
theorem resetCredits_spec (db : DB) (userId : Nat) :
    (db.users.lookup userId = none →
      resetCredits db userId = (db, .err "User not found" 404)) ∧
    (∀ acc, db.users.lookup userId = some acc →
      resetCredits db userId =
        ({ db with
            users := saveUser db.users userId { acc with apiCreditsUsed := 0 }
            transactions := db.transactions ++
              [{ user := userId
                 amount := acc.apiCreditsUsed
                 txKind := .adjustment
                 description := "Admin reset of used credits"
                 endpointPath := none
                 balanceAfter := acc.apiCreditsTotal
                 createdAt := db.clock }]
            clock := db.clock + 1 },
         .ok acc.apiCreditsUsed 0 acc.apiCreditsTotal)) := by
  constructor
  · intro h
    unfold resetCredits
    rw [h]
  · intro acc hlook
    unfold resetCredits
    rw [hlook]

/-- Witness for C7: the spec scenario with creditsUsed = 40 returns
previousUsed 40, currentUsed 0, remaining equal to creditsTotal, and
appends the amount-40 adjustment transaction. -/
theorem resetCredits_spec_witness :
    resetCredits dbUsed40 1 =
      ({ users := [(1, { name := "carol", email := "carol@example.com",
                         apiCreditsUsed := 0, apiCreditsTotal := 100 })]
         transactions := [{ user := 1, amount := 40, txKind := .adjustment,
                            description := "Admin reset of used credits",
                            endpointPath := none,
                            balanceAfter := 100, createdAt := 0 }]
         clock := 1 },
       .ok 40 0 100) := by
  have h := (resetCredits_spec dbUsed40 1).2
    { name := "carol", email := "carol@example.com",
      apiCreditsUsed := 40, apiCreditsTotal := 100 } rfl
  rw [h]
  decide

/-- Counterexample to claim C1: in the store db0 (one account with 100
total, 0 used), a consume whose transaction append fails after the
balance save leaves a mutated store — apiCreditsUsed became 1 — with no
transaction appended, so the balance write is neither rolled back nor
completed by a retried append: a partial mutation escapes. -/
theorem consume_append_failure_cex :
    (consumeCredits db0 1 "/api/estimate-calories" .failCreate).1 ≠ db0 ∧
    (consumeCredits db0 1 "/api/estimate-calories" .failCreate).1.transactions = [] ∧
    (consumeCredits db0 1 "/api/estimate-calories" .failCreate).1.users.lookup 1 =
      some { name := "alice", email := "alice@example.com",
             apiCreditsUsed := 1, apiCreditsTotal := 100 } := by
  refine ⟨?_, by decide, by decide⟩
  intro h
  have : ((consumeCredits db0 1 "/api/estimate-calories" .failCreate).1.users.lookup 1) =
      db0.users.lookup 1 := by rw [h]
  revert this
  decide

/-- Amended claim C1: when the transaction append fails after the
balance save, consumeCredits reports the generic processing error with
statusCode 500 — distinguishable from the 429 of InsufficientCredits —
but it does NOT roll back: the incremented apiCreditsUsed persists in
the store and no transaction is appended. -/
theorem consume_append_failure_no_rollback (db : DB) (userId : Nat)
    (acc : Account) (endpointPath : String)
    (hlook : db.users.lookup userId = some acc)
    (hge : getEndpointCreditCost endpointPath ≤
      acc.apiCreditsTotal - acc.apiCreditsUsed) :
    consumeCredits db userId endpointPath .failCreate =
      ({ db with users := saveUser db.users userId
                   { acc with apiCreditsUsed :=
                       acc.apiCreditsUsed + getEndpointCreditCost endpointPath } },
       .err "Error processing API credits" 500) ∧
    (∀ message, (consumeCredits db userId endpointPath .failCreate).2 ≠
      .err message 429) := by
  have hmain : consumeCredits db userId endpointPath .failCreate =
      ({ db with users := saveUser db.users userId
                   { acc with apiCreditsUsed :=
                       acc.apiCreditsUsed + getEndpointCreditCost endpointPath } },
       .err "Error processing API credits" 500) := by
    unfold consumeCredits
    rw [hlook]
    simp [not_lt.mpr hge]
  refine ⟨hmain, ?_⟩
  intro message
  rw [hmain]
  simp

/-- Witness for the amended C1 at the concrete store db0. -/
theorem consume_append_failure_no_rollback_witness :
    consumeCredits db0 1 "/api/estimate-calories" .failCreate =
      ({ users := [(1, { name := "alice", email := "alice@example.com",
                         apiCreditsUsed := 1, apiCreditsTotal := 100 })]
         transactions := []
         clock := 0 },
       .err "Error processing API credits" 500) := by
  have h := (consume_append_failure_no_rollback db0 1
    (freshAccount "alice" "alice@example.com") "/api/estimate-calories"
    rfl (by rw [cost_eq_one]; decide)).1
  rw [h]
  decide

/-- Claim C8: getTransactionHistory returns only transactions of the
requested account, ordered by createdAt descending, truncated to the
requested limit (20 when the call supplies no limit), and as a pure read
it is idempotent: two calls on the same store with the same limit return
identical results. -/
theorem getTransactionHistory_spec (db : DB) (userId : Nat) (limit : Nat) :
    (getTransactionHistory db userId limit).Sorted newerEq ∧
    (getTransactionHistory db userId limit).length ≤ limit ∧
    (∀ t ∈ getTransactionHistory db userId limit, t.user = userId) ∧
    getTransactionHistoryDefault db userId = getTransactionHistory db userId 20 ∧
    getTransactionHistory db userId limit = getTransactionHistory db userId limit := by
  refine ⟨?_, ?_, ?_, rfl, rfl⟩
  · exact (List.sorted_insertionSort newerEq
      (db.transactions.filter (fun t => t.user == userId))).take
  · exact List.length_take_le limit _
  · intro t ht
    have h1 : t ∈ (db.transactions.filter (fun t => t.user == userId)).insertionSort
        newerEq := List.mem_of_mem_take ht
    have h2 : t ∈ db.transactions.filter (fun t => t.user == userId) :=
      (List.mem_insertionSort newerEq).mp h1
    have h3 := List.of_mem_filter h2
    simpa using h3

theorem lookup_saveUser_forall {users : List (Nat × Account)} {P : Account → Prop}
    (hinv : ∀ uid acc, users.lookup uid = some acc → P acc)
    (userId : Nat) {a : Account} (ha : P a) :
    ∀ uid acc, (saveUser users userId a).lookup uid = some acc → P acc := by
  intro uid acc h
  rw [lookup_saveUser] at h
  by_cases he : uid = userId
  · rw [if_pos he] at h
    rcases hl : users.lookup uid with _ | b <;> rw [hl] at h
    · simp at h
    · simp at h
      exact h ▸ ha
  · rw [if_neg he] at h
    exact hinv uid acc h

theorem creditInv_applyOp {db : DB} (step : Nat × Op) (hinv : CreditInv db)
    (hpos : PosAmount step.2) : CreditInv (applyOp db step) := by
  rcases step with ⟨uid, op⟩
  cases op with
  | consume endpointPath fp =>
      show CreditInv (consumeCredits db uid endpointPath fp).1
      unfold consumeCredits
      rcases hl : db.users.lookup uid with _ | fu
      · exact hinv
      · simp only
        split_ifs with hc
        · exact hinv
        · have hok := hinv uid fu hl
          have hup : AccountOk
              { fu with apiCreditsUsed :=
                  fu.apiCreditsUsed + getEndpointCreditCost endpointPath } := by
            have hcost : getEndpointCreditCost endpointPath = 1 := cost_eq_one _
            rcases hok with ⟨h1, h2, h3⟩
            refine ⟨?_, ?_, h3⟩ <;>
              simp only [hcost] at hc ⊢ <;> omega
          cases fp with
          | noFail => exact lookup_saveUser_forall hinv uid hup
          | failSave => exact hinv
          | failCreate => exact lookup_saveUser_forall hinv uid hup
  | add amount description =>
      show CreditInv (addCredits db uid amount description).1
      unfold addCredits
      rcases hl : db.users.lookup uid with _ | u
      · exact hinv
      · simp only
        split_ifs with hc
        · exact hinv
        · have hok := hinv uid u hl
          have hup : AccountOk
              { u with apiCreditsTotal := u.apiCreditsTotal + amount } := by
            rcases hok with ⟨h1, h2, h3⟩
            have hp : (0 : Int) < amount := hpos
            refine ⟨h1, ?_, ?_⟩
            · show u.apiCreditsUsed ≤ u.apiCreditsTotal + amount
              omega
            · show (0 : Int) ≤ u.apiCreditsTotal + amount
              omega
          exact lookup_saveUser_forall hinv uid hup
  | reset =>
      show CreditInv (resetCredits db uid).1
      unfold resetCredits
      rcases hl : db.users.lookup uid with _ | u
      · exact hinv
      · have hok := hinv uid u hl
        have hup : AccountOk { u with apiCreditsUsed := 0 } := by
          rcases hok with ⟨h1, h2, h3⟩
          exact ⟨le_refl 0, h3, h3⟩
        exact lookup_saveUser_forall hinv uid hup
  | routeReset =>
      show CreditInv (routeResetCount db uid).1
      unfold routeResetCount
      rcases hl : db.users.lookup uid with _ | u
      · exact hinv
      · have hok := hinv uid u hl
        have hup : AccountOk { u with apiCreditsUsed := 0 } := by
          rcases hok with ⟨h1, h2, h3⟩
          exact ⟨le_refl 0, h3, h3⟩
        exact lookup_saveUser_forall hinv uid hup

theorem creditInv_runOps (ops : List (Nat × Op)) (db : DB) (hinv : CreditInv db)
    (hpos : ∀ s ∈ ops, PosAmount s.2) : CreditInv (runOps db ops) := by
  induction ops generalizing db with
  | nil => exact hinv
  | cons s rest ih =>
      exact ih (applyOp db s) (creditInv_applyOp s hinv (hpos s (by simp)))
        (fun s2 h2 => hpos s2 (by simp [h2]))

/-- Claim C4: starting from the account-creation state
(creditsTotal = 100, creditsUsed = 0), after every sequence of consume,
addCredits, resetCredits (and even route-level reset) calls in which
each added amount is positive, every stored account satisfies
0 <= creditsUsed and creditsUsed <= creditsTotal — remaining is never
negative. -/
theorem credit_invariant (name email : String) (userId : Nat)
    (ops : List (Nat × Op)) (hpos : ∀ s ∈ ops, PosAmount s.2) :
    CreditInv (runOps
      { users := [(userId, freshAccount name email)],
        transactions := [], clock := 0 } ops) := by
  apply creditInv_runOps ops _ _ hpos
  intro uid acc h
  simp only [List.lookup] at h
  rcases hb : (uid == userId) with _ | _ <;> rw [hb] at h
  · simp [List.lookup] at h
  · simp only [Option.some.injEq] at h
    have : AccountOk (freshAccount name email) := by
      refine ⟨le_refl 0, ?_, ?_⟩ <;>
        · show (0 : Int) ≤ 100
          decide
    exact h ▸ this

/-- Witness for C4: a concrete run of consume, add, reset and the
route-level reset against the freshly created account. -/
theorem credit_invariant_witness :
    (∀ s ∈ ([(1, Op.consume "/api/estimate-calories" .noFail),
             (1, Op.add 50 "Credit refill"), (1, Op.reset),
             (1, Op.routeReset)] : List (Nat × Op)), PosAmount s.2) ∧
    CreditInv (runOps
      { users := [(1, freshAccount "alice" "alice@example.com")],
        transactions := [], clock := 0 }
      [(1, Op.consume "/api/estimate-calories" .noFail),
       (1, Op.add 50 "Credit refill"), (1, Op.reset),
       (1, Op.routeReset)]) :=
  ⟨by decide, credit_invariant "alice" "alice@example.com" 1
    [(1, Op.consume "/api/estimate-calories" .noFail),
     (1, Op.add 50 "Credit refill"), (1, Op.reset),
     (1, Op.routeReset)] (by decide)⟩

theorem replay_snoc (txs : List CreditTx) (t : CreditTx) :
    replay (txs ++ [t]) = applyTxPair (replay txs) t := by
  simp [replay, List.foldl_append]

theorem replayInv_applyOp {db : DB} (step : Nat × Op) (hinv : ReplayInv db)
    (hok : LedgerOk step.2) : ReplayInv (applyOp db step) := by
  rcases step with ⟨uid, op⟩
  cases op with
  | routeReset => exact hok.elim
  | consume endpointPath fp =>
      have hfp : fp = .noFail := hok
      subst hfp
      show ReplayInv (consumeCredits db uid endpointPath .noFail).1
      unfold consumeCredits
      rcases hl : db.users.lookup uid with _ | fu
      · exact hinv
      · simp only
        split_ifs with hc
        · exact hinv
        · intro uid2 acc2 h2
          have h2b : (saveUser db.users uid
              { fu with apiCreditsUsed :=
                  fu.apiCreditsUsed + getEndpointCreditCost endpointPath }).lookup uid2 =
              some acc2 := h2
          rw [lookup_saveUser] at h2b
          by_cases he : uid2 = uid
          · subst he
            rw [if_pos rfl, hl] at h2b
            simp at h2b
            subst h2b
            show replay ((db.transactions ++ [_]).filter fun t2 => t2.user == uid2) = _
            have hrep := hinv uid2 fu hl
            simp [List.filter_append, List.filter, replay_snoc, applyTxPair, hrep,
              sub_neg_eq_add]
          · rw [if_neg he] at h2b
            show replay ((db.transactions ++ [_]).filter fun t2 => t2.user == uid2) = _
            have hb : (uid == uid2) = false := by
              simpa using fun hcc => he hcc.symm
            simp only [List.filter_append, List.filter, hb, List.append_nil]
            simpa using hinv uid2 acc2 h2b
  | add amount description =>
      show ReplayInv (addCredits db uid amount description).1
      unfold addCredits
      rcases hl : db.users.lookup uid with _ | u
      · exact hinv
      · simp only
        split_ifs with hc
        · exact hinv
        · intro uid2 acc2 h2
          have h2b : (saveUser db.users uid
              { u with apiCreditsTotal := u.apiCreditsTotal + amount }).lookup uid2 =
              some acc2 := h2
          rw [lookup_saveUser] at h2b
          by_cases he : uid2 = uid
          · subst he
            rw [if_pos rfl, hl] at h2b
            simp at h2b
            subst h2b
            show replay ((db.transactions ++ [_]).filter fun t2 => t2.user == uid2) = _
            have hrep := hinv uid2 u hl
            simp [List.filter_append, List.filter, replay_snoc, applyTxPair, hrep]
          · rw [if_neg he] at h2b
            show replay ((db.transactions ++ [_]).filter fun t2 => t2.user == uid2) = _
            have hb : (uid == uid2) = false := by
              simpa using fun hcc => he hcc.symm
            simp only [List.filter_append, List.filter, hb, List.append_nil]
            simpa using hinv uid2 acc2 h2b
  | reset =>
      show ReplayInv (resetCredits db uid).1
      unfold resetCredits
      rcases hl : db.users.lookup uid with _ | u
      · exact hinv
      · intro uid2 acc2 h2
        have h2b : (saveUser db.users uid
            { u with apiCreditsUsed := 0 }).lookup uid2 = some acc2 := h2
        rw [lookup_saveUser] at h2b
        by_cases he : uid2 = uid
        · subst he
          rw [if_pos rfl, hl] at h2b
          simp at h2b
          subst h2b
          show replay ((db.transactions ++ [_]).filter fun t2 => t2.user == uid2) = _
          have hrep := hinv uid2 u hl
          simp [List.filter_append, List.filter, replay_snoc, applyTxPair, hrep,
            sub_self]
        · rw [if_neg he] at h2b
          show replay ((db.transactions ++ [_]).filter fun t2 => t2.user == uid2) = _
          have hb : (uid == uid2) = false := by
            simpa using fun hcc => he hcc.symm
          simp only [List.filter_append, List.filter, hb, List.append_nil]
          simpa using hinv uid2 acc2 h2b

theorem replayInv_runOps (ops : List (Nat × Op)) (db : DB) (hinv : ReplayInv db)
    (hok : ∀ s ∈ ops, LedgerOk s.2) : ReplayInv (runOps db ops) := by
  induction ops generalizing db with
  | nil => exact hinv
  | cons s rest ih =>
      exact ih (applyOp db s) (replayInv_applyOp s hinv (hok s (by simp)))
        (fun s2 h2 => hok s2 (by simp [h2]))

/-- Counterexample to claim C5: the repository also mutates creditsUsed
outside the ledger — the admin route POST /api/users/:id/reset-count
zeroes apiCreditsUsed directly and appends no transaction.  After a
consume followed by that route, the transaction log replays from the
creation state to (100, 1) while the stored account is back at
creditsUsed = 0, so replaying the log does not reproduce the current
state. -/
theorem replay_route_reset_cex :
    replay ((runOps db0 [(1, Op.consume "/api/estimate-calories" .noFail),
        (1, Op.routeReset)]).transactions.filter (fun t => t.user == 1)) = (100, 1) ∧
    (runOps db0 [(1, Op.consume "/api/estimate-calories" .noFail),
        (1, Op.routeReset)]).users.lookup 1 =
      some (freshAccount "alice" "alice@example.com") ∧
    ¬ ReplayInv (runOps db0 [(1, Op.consume "/api/estimate-calories" .noFail),
        (1, Op.routeReset)]) := by
  refine ⟨by decide, by decide, ?_⟩
  intro hinv
  have h := hinv 1 (freshAccount "alice" "alice@example.com") (by decide)
  revert h
  decide

/-- Amended claim C5: restricted to the ledger operations themselves —
consumeCredits without a persistence failure, addCredits and
resetCredits, but not the reset-count route, which writes creditsUsed
directly without appending a transaction — replaying the transaction log
of an account from its creation state (creditsTotal = 100,
creditsUsed = 0) reproduces the current (creditsTotal, creditsUsed)
exactly, after any sequence of such operations. -/
theorem replay_reconstructs_state (name email : String) (userId : Nat)
    (ops : List (Nat × Op)) (hok : ∀ s ∈ ops, LedgerOk s.2) :
    ReplayInv (runOps
      { users := [(userId, freshAccount name email)],
        transactions := [], clock := 0 } ops) := by
  apply replayInv_runOps ops _ _ hok
  intro uid acc h
  simp only [List.lookup] at h
  rcases hb : (uid == userId) with _ | _ <;> rw [hb] at h
  · simp [List.lookup] at h
  · simp only [Option.some.injEq] at h
    subst h
    rfl

/-- Witness for the amended C5: a concrete consume, add, reset run. -/
theorem replay_reconstructs_state_witness :
    (∀ s ∈ ([(1, Op.consume "/api/estimate-calories" .noFail),
             (1, Op.add 50 "Credit refill"), (1, Op.reset)] : List (Nat × Op)),
      LedgerOk s.2) ∧
    ReplayInv (runOps
      { users := [(1, freshAccount "alice" "alice@example.com")],
        transactions := [], clock := 0 }
      [(1, Op.consume "/api/estimate-calories" .noFail),
       (1, Op.add 50 "Credit refill"), (1, Op.reset)]) :=
  ⟨by decide, replay_reconstructs_state "alice" "alice@example.com" 1
    [(1, Op.consume "/api/estimate-calories" .noFail),
     (1, Op.add 50 "Credit refill"), (1, Op.reset)] (by decide)⟩

end CreditLedger
